import Mathlib

/-!
Verification development for the dapurPintarMBG scan pipeline.

The definitions below are a shallow embedding of the Python source:
scanner/common.py (code extraction, stage validators, the scan loop),
backend/core/syncer.py (background sync cycle), backend/services/printing.py
and backend/api/print_queue.py (print-job queue and its endpoints), and
printer/printer_poller.py (the poll cycle of the printing agent).

Python strings are Lean String values; the str operations the source uses
(strip, lower, split, find, startswith, slicing) are modelled below on the
underlying character lists.  Timestamps and calendar days are opaque Nat
ticks, wall-clock seconds in the scan loop are rationals.  Database and
network calls that can raise are modelled with Except (an error value is a
raised exception); pure reads of the remote store are total functions of an
explicit store value.
-/

/-! ## Python string operations -/

/-- Whitespace characters stripped by the Python str.strip method. -/
def pyIsSpace (c : Char) : Bool :=
  c = ' ' || c = '\t' || c = '\n' || c = '\r' || c = '\x0b' || c = '\x0c'

/-- Strip leading and trailing whitespace from a character list. -/
def stripL (l : List Char) : List Char :=
  ((l.dropWhile pyIsSpace).reverse.dropWhile pyIsSpace).reverse

/-- Python str.strip. -/
def pyStrip (s : String) : String := ⟨stripL s.data⟩

/-- Python str.lower (the source only lowercases ASCII codes and keys). -/
def pyLower (s : String) : String := ⟨s.data.map Char.toLower⟩

/-- Python s.startswith(p), on character lists. -/
def startsWithL : List Char → List Char → Bool
  | _, [] => true
  | [], _ :: _ => false
  | c :: cs, p :: ps => c = p && startsWithL cs ps

/-- Python substring containment (pat in l), on character lists. -/
def containsL (pat : List Char) : List Char → Bool
  | [] => startsWithL [] pat
  | c :: cs => startsWithL (c :: cs) pat || containsL pat cs

/-- Python substring containment (pat in s). -/
def pyContains (s pat : String) : Bool := containsL pat.data s.data

/-- Python s.find(pat): index of the first occurrence, or none. -/
def findIdxL (pat : List Char) : List Char → Option Nat
  | [] => if startsWithL [] pat then some 0 else none
  | c :: cs =>
    if startsWithL (c :: cs) pat then some 0
    else (findIdxL pat cs).map (· + 1)

/-- Python s.split(d) for a one-character separator d. -/
def splitCharL (d : Char) : List Char → List (List Char)
  | [] => [[]]
  | c :: cs =>
    match splitCharL d cs with
    | [] => [[]]
    | p :: ps => if c = d then [] :: p :: ps else (c :: p) :: ps

/-- Python part.split(sep, 1) for sep a single char: the text before the
first occurrence and the text after it; none when the char is absent
(the source first tests membership with the in operator). -/
def splitEqL : List Char → Option (List Char × List Char)
  | [] => none
  | c :: cs =>
    if c = '=' then some ([], cs)
    else (splitEqL cs).map (fun kv => (c :: kv.1, kv.2))

/-- Python s[:n]. -/
def pyTake (s : String) (n : Nat) : String := ⟨s.data.take n⟩

/-! ## Code extraction (extract_code in scanner/common.py) -/

/-- Delimiter characters at which a prefix-extracted chunk is truncated, in
the order the source lists them. -/
def delimChars : List Char :=
  ['&', '?', '#', '/', '\\', '\"', '\'', ',', ';', ')', '(', ']', '[', '\x7d', '\x7b']

/-- Recognized query-parameter keys of extract_code. -/
def paramKeys : List String := ["tray_id", "ingredient_id", "id", "barcode"]

/-- One iteration of the parameter loop of extract_code: a part yields a
value when it contains an equals sign, its stripped lowercased key is
recognized, and its stripped value is nonempty. -/
def recognizedValue (part : List Char) : Option String :=
  match splitEqL part with
  | none => none
  | some (k, v) =>
    if paramKeys.contains (pyLower (pyStrip ⟨k⟩)) && pyStrip ⟨v⟩ ≠ "" then
      some (pyStrip ⟨v⟩)
    else none

/-- The parameter loop of extract_code: first part with a recognized key and
nonempty value wins. -/
def findParamLoop : List (List Char) → Option String
  | [] => none
  | p :: ps =>
    match recognizedValue p with
    | some v => some v
    | none => findParamLoop ps

/-- Chunk extraction of extract_code once a known code marker was found at
index idx: take 64 characters, cut at the first whitespace, then cut at each
delimiter character. -/
def chunkAt (s : List Char) (idx : Nat) : List Char :=
  delimChars.foldl (fun ch d => ch.takeWhile (· ≠ d))
    (((s.drop idx).take 64).takeWhile (fun c => !(pyIsSpace c)))

/-- The code-marker search of extract_code: TRY- is tried first, then BHN-;
when neither occurs the trimmed input itself is returned. -/
def markerSearch (s : List Char) : List Char :=
  match findIdxL ("TRY-".data) s with
  | some idx => chunkAt s idx
  | none =>
    match findIdxL ("BHN-".data) s with
    | some idx => chunkAt s idx
    | none => s

/-- The guard of the parameter branch of extract_code: one of the four key
markers occurs in the lowercased input. -/
def paramGuard (lower : String) : Bool :=
  pyContains lower "tray_id=" || pyContains lower "ingredient_id=" ||
    pyContains lower "id=" || pyContains lower "barcode="

/-- Model of extract_code in scanner/common.py: strip the raw input, return
the empty string for blank input, otherwise try the query-parameter loop
(guarded by a substring test on the lowercased input) and fall back to the
code-marker search. -/
def extract_code (raw : String) : String :=
  let s := pyStrip raw
  if s = "" then ""
  else
    let fromParam :=
      if paramGuard (pyLower s) then
        findParamLoop (splitCharL '&' (s.data.map (fun c => if c = '?' then '&' else c)))
      else none
    match fromParam with
    | some v => v
    | none => ⟨markerSearch s.data⟩

/-! ## Data model: remote store rows (Supabase tables used by the core) -/

/-- Row of the remote items table as read and written by the core: the
receiving and processing stage flags and the processing timestamps. -/
structure ItemRow where
  id : String
  receiving : Bool
  processing : Bool
  created_at_processing : Option Nat := none
  created_date_processing : Option Nat := none
deriving Repr, DecidableEq

/-- Row of the remote trays table: packing and delivery stage flags with
their timestamp and calendar-day columns. -/
structure TrayRow where
  tray_id : String
  packing : Bool
  delivery : Bool
  created_at_packing : Option Nat := none
  created_date_packing : Option Nat := none
  created_at_delivery : Option Nat := none
  created_date_delivery : Option Nat := none
deriving Repr, DecidableEq

/-- Row of the remote scan_errors audit table. -/
structure ScanErrRow where
  code : String
  step : String
  created_at : Nat
  reason : String
deriving Repr, DecidableEq

/-- The authoritative remote store: items, trays, the tray_items
registration table (only its tray_id column is consulted) and the
scan-error log. -/
structure RemoteState where
  items : List ItemRow
  trays : List TrayRow
  tray_items : List String
  scan_errors : List ScanErrRow
deriving Repr, DecidableEq

/-- Model of _get_remote_item: first items row whose id equals the code. -/
def getRemoteItem (r : RemoteState) (code : String) : Option ItemRow :=
  r.items.find? (fun it => it.id == code)

/-- Model of _get_remote_tray: first trays row whose tray_id equals the code. -/
def getRemoteTray (r : RemoteState) (code : String) : Option TrayRow :=
  r.trays.find? (fun t => t.tray_id == code)

/-- Model of _is_remote_tray_registered: some tray_items row names the code. -/
def isRemoteTrayRegistered (r : RemoteState) (code : String) : Bool :=
  r.tray_items.contains code

/-! ## Stage validators (scanner/common.py)

Each validator takes the outcome of its remote read as an Except value: an
error value is an exception raised by the read, an ok value is the data it
returned.  For Packing and Delivery the two reads of the source sit inside
one try block, so a single Except covers the pair (registered flag, tray
row). -/

/-- Model of validate_processing. -/
def validate_processing (code : String)
    (fetchItem : Except String (Option ItemRow)) : Bool × String :=
  if code = "" then (false, "EMPTY_SCAN")
  else if !(startsWithL code.data ("BHN-".data)) then
    (false, "NOT_AN_INGREDIENT_CODE (expected BHN-, got: " ++ pyTake code 8 ++ ")")
  else
    match fetchItem with
    | .error e => (false, "SUPABASE_UNREACHABLE: " ++ e)
    | .ok none => (false, "INGREDIENT_NOT_FOUND")
    | .ok (some row) =>
      if !row.receiving then (false, "NOT_RECEIVED")
      else if row.processing then (false, "ALREADY_PROCESSED")
      else (true, "")

/-- Model of validate_packing; today is the current calendar day. -/
def validate_packing (code : String) (today : Nat)
    (fetchTray : Except String (Bool × Option TrayRow)) : Bool × String :=
  if code = "" then (false, "EMPTY_SCAN")
  else if !(startsWithL code.data ("TRY-".data)) then
    (false, "NOT_A_TRAY_CODE (expected TRY-, got: " ++ pyTake code 8 ++ ")")
  else if code.length ≠ 12 then
    (false, "INVALID_TRAY_ID_LENGTH (expected 12, got " ++ toString code.length ++ ")")
  else
    match fetchTray with
    | .error e => (false, "SUPABASE_UNREACHABLE: " ++ e)
    | .ok (registered, row) =>
      if !registered then (false, "TRAY_NOT_REGISTERED")
      else
        match row with
        | some r =>
          if r.packing then
            if r.created_date_packing = some today then
              (false, "ALREADY_PACKED_TODAY")
            else (true, "")
          else (true, "")
        | none => (true, "")

/-- Model of validate_delivery; today is the current calendar day. -/
def validate_delivery (code : String) (today : Nat)
    (fetchTray : Except String (Bool × Option TrayRow)) : Bool × String :=
  if code = "" then (false, "EMPTY_SCAN")
  else if !(startsWithL code.data ("TRY-".data)) then
    (false, "NOT_A_TRAY_CODE (expected TRY-, got: " ++ pyTake code 8 ++ ")")
  else if code.length ≠ 12 then
    (false, "INVALID_TRAY_ID_LENGTH (expected 12, got " ++ toString code.length ++ ")")
  else
    match fetchTray with
    | .error e => (false, "SUPABASE_UNREACHABLE: " ++ e)
    | .ok (registered, row) =>
      if !registered then (false, "TRAY_NOT_REGISTERED")
      else
        match row with
        | none => (false, "NOT_PACKED")
        | some r =>
          if !r.packing then (false, "NOT_PACKED")
          else if r.delivery then
            if r.created_date_delivery = some today then
              (false, "ALREADY_DELIVERED_TODAY")
            else (true, "")
          else (true, "")

/-- Remote read of the Processing validator against a concrete store. -/
def itemFetchOf (r : RemoteState) (code : String) : Except String (Option ItemRow) :=
  .ok (getRemoteItem r code)

/-- Remote reads of the Packing and Delivery validators against a store. -/
def trayFetchOf (r : RemoteState) (code : String) : Except String (Bool × Option TrayRow) :=
  .ok (isRemoteTrayRegistered r code, getRemoteTray r code)

/-! ## Local durable queue and the background syncer (backend/core/syncer.py) -/

/-- Row of the local scan queue (local_scan_queue): the syncer reads id,
code, step and the synced flag. -/
structure LocalScanRow where
  id : Nat
  code : String
  step : String
  synced : Nat := 0
deriving Repr, DecidableEq

/-- Row of the local scan-error queue (local_scan_errors). -/
structure LocalErrRow where
  id : Nat
  code : String
  step : String
  created_at : Nat := 0
  reason : String := ""
  synced : Nat := 0
deriving Repr, DecidableEq

/-- State shared by the edge process and the syncer: the two local queues
and the remote store. -/
structure SyncState where
  scanQueue : List LocalScanRow
  errQueue : List LocalErrRow
  remote : RemoteState
deriving Repr, DecidableEq

/-- The Processing branch of _sync_scans applied to one items row: set the
processing flag and its timestamps on the row matching the code. -/
def updItemProcessing (code : String) (now today : Nat) (it : ItemRow) : ItemRow :=
  if it.id = code then
    { it with processing := true, created_at_processing := some now,
              created_date_processing := some today }
  else it

/-- The Packing update branch of _sync_scans applied to one trays row. -/
def updTrayPacking (code : String) (now today : Nat) (t : TrayRow) : TrayRow :=
  if t.tray_id = code then
    { t with packing := true, created_at_packing := some now,
             created_date_packing := some today }
  else t

/-- The Delivery branch of _sync_scans applied to one trays row. -/
def updTrayDelivery (code : String) (now today : Nat) (t : TrayRow) : TrayRow :=
  if t.tray_id = code then
    { t with delivery := true, created_at_delivery := some now,
             created_date_delivery := some today }
  else t

/-- The Packing insert branch of _sync_scans: the freshly inserted trays
row; columns the insert does not name keep the table defaults. -/
def insertTrayPacking (code : String) (now today : Nat) : TrayRow :=
  { tray_id := code, packing := true, delivery := false,
    created_at_packing := some now, created_date_packing := some today }

/-- The Packing branch of _sync_scans on the trays table: probe for the
tray by code, update when present, insert when absent. -/
def packingUpsert (c : String) (now today : Nat) (l : List TrayRow) : List TrayRow :=
  if l.any (fun t => t.tray_id == c) then l.map (updTrayPacking c now today)
  else l ++ [insertTrayPacking c now today]

/-- One loop iteration of _sync_scans: the remote mutation for one local
queue row, dispatched on its step string.  Processing and Delivery execute a
bare update, Packing runs the probe-then-update-or-insert above; a row with
any other step string performs no remote operation. -/
def applyScanRow (now today : Nat) (row : LocalScanRow) (r : RemoteState) : RemoteState :=
  if row.step = "Processing" then
    { r with items := r.items.map (updItemProcessing row.code now today) }
  else if row.step = "Packing" then
    { r with trays := packingUpsert row.code now today r.trays }
  else if row.step = "Delivery" then
    { r with trays := r.trays.map (updTrayDelivery row.code now today) }
  else r

/-- Remote transaction pushing a batch of scan rows: each row is executed by
exec, which may raise; an error aborts (and rolls back) the transaction. -/
def pushScans (exec : RemoteState → LocalScanRow → Except String RemoteState)
    (rows : List LocalScanRow) (r : RemoteState) : Except String RemoteState :=
  rows.foldlM exec r

/-- The fault-free executor of one scan row: the pure remote mutation. -/
def execScanRow (now today : Nat) (r : RemoteState) (row : LocalScanRow) :
    Except String RemoteState :=
  .ok (applyScanRow now today row r)

/-- Body of _sync_scans given the rows read from the local queue: push them
inside one remote transaction, and only on success delete exactly those row
ids from the local queue.  An error return models the raised exception, with
the local state untouched. -/
def syncScansGo (exec : RemoteState → LocalScanRow → Except String RemoteState)
    (s : SyncState) (rows : List LocalScanRow) : Except String SyncState :=
  if rows.isEmpty then .ok s
  else
    match pushScans exec rows s.remote with
    | .error e => .error e
    | .ok r2 =>
      .ok { s with remote := r2,
                   scanQueue := s.scanQueue.filter
                     (fun q => !(rows.any (fun w => w.id == q.id))) }

/-- Model of _sync_scans, reading the unsynced rows first. -/
def syncScansE (exec : RemoteState → LocalScanRow → Except String RemoteState)
    (s : SyncState) : Except String SyncState :=
  syncScansGo exec s (s.scanQueue.filter (fun q => q.synced == 0))

/-- Remote transaction pushing a batch of error rows. -/
def pushErrors (exec : RemoteState → LocalErrRow → Except String RemoteState)
    (rows : List LocalErrRow) (r : RemoteState) : Except String RemoteState :=
  rows.foldlM exec r

/-- The fault-free executor of one error row: insert into remote scan_errors. -/
def execErrRow (r : RemoteState) (row : LocalErrRow) : Except String RemoteState :=
  .ok { r with scan_errors :=
          r.scan_errors ++ [⟨row.code, row.step, row.created_at, row.reason⟩] }

/-- Body of _sync_errors given the rows read from the local error queue,
following the same push-then-delete discipline. -/
def syncErrorsGo (exec : RemoteState → LocalErrRow → Except String RemoteState)
    (s : SyncState) (rows : List LocalErrRow) : Except String SyncState :=
  if rows.isEmpty then .ok s
  else
    match pushErrors exec rows s.remote with
    | .error e => .error e
    | .ok r2 =>
      .ok { s with remote := r2,
                   errQueue := s.errQueue.filter
                     (fun q => !(rows.any (fun w => w.id == q.id))) }

/-- Model of _sync_errors, reading the unsynced rows first. -/
def syncErrorsE (exec : RemoteState → LocalErrRow → Except String RemoteState)
    (s : SyncState) : Except String SyncState :=
  syncErrorsGo exec s (s.errQueue.filter (fun q => q.synced == 0))

/-- Model of _sync_cycle: run _sync_scans then _sync_errors; any raised
exception is caught, leaving the state reached so far. -/
def syncCycle (execS : RemoteState → LocalScanRow → Except String RemoteState)
    (execE : RemoteState → LocalErrRow → Except String RemoteState)
    (s : SyncState) : SyncState :=
  match syncScansE execS s with
  | .error _ => s
  | .ok s1 =>
    match syncErrorsE execE s1 with
    | .error _ => s1
    | .ok s2 => s2

/-! ## Print job queue, endpoints and the printing agent -/

/-- Row of the print_jobs table (backend/core/database.py): printed is 0 for
pending, 1 for printed. -/
structure PrintJob where
  id : Nat
  tspl : String
  created_at : Nat := 0
  printed : Nat := 0
  printed_at : Option Nat := none
deriving Repr, DecidableEq

/-- Model of db_get_next_print_job: the oldest row (smallest id) among the
rows with printed = 0, when any exists. -/
def db_get_next_print_job (jobs : List PrintJob) : Option PrintJob :=
  (jobs.filter (fun j => j.printed == 0)).foldl
    (fun acc j =>
      match acc with
      | none => some j
      | some a => if j.id < a.id then some j else some a)
    none

/-- Model of db_mark_print_job_printed: set printed and printed_at on every
row whose id matches (zero rows affected when the id is unknown). -/
def db_mark_print_job_printed (job_id : Nat) (now : Nat)
    (jobs : List PrintJob) : List PrintJob :=
  jobs.map (fun j =>
    if j.id = job_id then { j with printed := 1, printed_at := some now } else j)

/-- Responses of the two print endpoints. -/
inductive ApiResp (α : Type) where
  | forbidden
  | ok (a : α)
deriving Repr, DecidableEq

/-- Model of GET /print-queue (backend/api/print_queue.py): key check, then
at most one pending job, oldest first. -/
def print_queue (configKey : String) (provided : Option String)
    (jobs : List PrintJob) : ApiResp (List (Nat × String)) :=
  if configKey ≠ "" && !(provided == some configKey) then .forbidden
  else
    match db_get_next_print_job jobs with
    | none => .ok []
    | some j => .ok [(j.id, j.tspl)]

/-- Model of POST /print-complete: key check, then mark the job printed and
answer ok (the storage layer is modelled as not raising). -/
def print_complete (configKey : String) (provided : Option String)
    (job_id : Nat) (now : Nat) (jobs : List PrintJob) :
    ApiResp Bool × List PrintJob :=
  if configKey ≠ "" && !(provided == some configKey) then (.forbidden, jobs)
  else (.ok true, db_mark_print_job_printed job_id now jobs)

/-- Model of poll_once in printer/printer_poller.py.  printOk tells whether
the physical write call (send_raw_to_printer) returns successfully; when it
raises, the exception propagates to the loop in main, which drops it, so no
acknowledgement is sent and the queue is left untouched.  The second
component records the acknowledged job id, if any. -/
def poll_once (printOk : Bool) (configKey : String) (provided : Option String)
    (now : Nat) (jobs : List PrintJob) : List PrintJob × Option Nat :=
  match print_queue configKey provided jobs with
  | .forbidden => (jobs, none)
  | .ok [] => (jobs, none)
  | .ok ((jid, _) :: _) =>
    if printOk then ((print_complete configKey provided jid now jobs).2, some jid)
    else (jobs, none)

/-! ## The scan loop (run_scanner in scanner/common.py)

One iteration of the line loop is modelled as a pure step function.  All
effects of an iteration are recorded as a list of events; the oracles inside
a LineInput fix the outcome of every call that can raise (the remote
validator read, the retried local queue writes, the delivery processing), so
the step is a total function of the line, the loop state and those
outcomes.  Sound playback swallows its own exceptions in the source and is
not recorded. -/

/-- Observable effects of one scan-loop iteration. -/
inductive ScanEvent where
  | validated (code : String)
  | enqScan (code step label : String)
  | enqError (code step reason : String)
  | delivered (code : String)
  | status (ok : Bool) (when reason : String)
deriving Repr, DecidableEq

/-- Per-line input: the raw line, the wall-clock time of the scan, the
operator-visible timestamp string, the outcomes of the remote reads, the
current day, and whether each fallible local call raises. -/
structure LineInput where
  line : String
  t : ℚ
  whenStr : String
  itemFetch : Except String (Option ItemRow)
  trayFetch : Except String (Bool × Option TrayRow)
  today : Nat
  enqScanFails : Bool
  enqErrFails : Bool
  deliveryFails : Bool
  excMsg : String

/-- The write_label table of run_scanner. -/
def writeLabel (mode : String) : String :=
  if mode = "Processing" then "processed"
  else if mode = "Packing" then "packed"
  else "delivered"

/-- The validators table of run_scanner: dispatch on the mode string. -/
def runValidator (mode : String) (inp : LineInput) (code : String) : Bool × String :=
  if mode = "Processing" then validate_processing code inp.itemFetch
  else if mode = "Packing" then validate_packing code inp.today inp.trayFetch
  else validate_delivery code inp.today inp.trayFetch

/-- DEBOUNCE_SECONDS of scanner/common.py. -/
def debounceWindow : ℚ := 7 / 10

/-- The try/except body of one non-dropped iteration of run_scanner: the
stage validator runs, and the branch structure of the block determines the
events; every branch ends in exactly one status event, also when a local
write or the delivery processing raises. -/
def scanProcess (mode code : String) (inp : LineInput) : List ScanEvent :=
  let vr := runValidator mode inp code
  let errTarget := if code = "" then pyStrip inp.line else code
  let excReason := "EXCEPTION: " ++ inp.excMsg
  if vr.1 = false then
    if inp.enqErrFails then
      [.validated code, .status false inp.whenStr excReason]
    else
      [.validated code, .enqError errTarget mode vr.2, .status false inp.whenStr vr.2]
  else if inp.enqScanFails then
    if inp.enqErrFails then
      [.validated code, .status false inp.whenStr excReason]
    else
      [.validated code, .enqError errTarget mode excReason,
       .status false inp.whenStr excReason]
  else if mode = "Delivery" ∧ inp.deliveryFails = true then
    if inp.enqErrFails then
      [.validated code, .enqScan code mode (writeLabel mode),
       .status false inp.whenStr excReason]
    else
      [.validated code, .enqScan code mode (writeLabel mode),
       .enqError errTarget mode excReason, .status false inp.whenStr excReason]
  else
    [.validated code, .enqScan code mode (writeLabel mode)] ++
      (if mode = "Delivery" then [ScanEvent.delivered code] else []) ++
      [.status true inp.whenStr ""]

/-- One iteration of the line loop of run_scanner.  The state is the pair
(last_code, last_time).  A line whose extracted code is nonempty, equal to
last_code and within the debounce window of last_time is dropped before any
other work and leaves the state unchanged; otherwise the state is updated
and the body above runs. -/
def scanStep (mode : String) (st : Option String × ℚ) (inp : LineInput) :
    (Option String × ℚ) × List ScanEvent :=
  let code := extract_code (pyStrip inp.line)
  if code ≠ "" ∧ st.1 = some code ∧ inp.t - st.2 < debounceWindow then (st, [])
  else ((some code, inp.t), scanProcess mode code inp)

/-- The whole line loop over a list of inputs, collecting all events. -/
def runLines (mode : String) : (Option String × ℚ) → List LineInput → List ScanEvent
  | _, [] => []
  | st, inp :: rest =>
    let r := scanStep mode st inp
    r.2 ++ runLines mode r.1 rest

/-- Test for a status event. -/
def isStatus : ScanEvent → Bool
  | .status _ _ _ => true
  | _ => false

/-- Number of status blocks among a list of events. -/
def countStatus (evs : List ScanEvent) : Nat := (evs.filter isStatus).length

/-! ## Helper lemmas -/


theorem syncErrorsE_scanQueue (exec : RemoteState → LocalErrRow → Except String RemoteState)
    (s s2 : SyncState) (h : syncErrorsE exec s = .ok s2) : s2.scanQueue = s.scanQueue := by
  unfold syncErrorsE syncErrorsGo at h
  split at h
  · injection h with h
    rw [← h]
  · split at h
    · cases h
    · injection h with h
      rw [← h]

theorem pushScans_nil (exec : RemoteState → LocalScanRow → Except String RemoteState)
    (r : RemoteState) : pushScans exec [] r = .ok r := rfl

/-- Claim C1: a sync cycle whose remote push of the unsynced scan batch
raises deletes nothing from either local queue — the whole cycle state is
unchanged — and the scan queue shrinks only when the batch transaction
committed. -/
theorem sync_cycle_keeps_local_on_push_error
    (execS : RemoteState → LocalScanRow → Except String RemoteState)
    (execE : RemoteState → LocalErrRow → Except String RemoteState)
    (s : SyncState) :
    (∀ e, pushScans execS (s.scanQueue.filter (fun q => q.synced == 0)) s.remote = .error e →
        syncCycle execS execE s = s)
    ∧ ((syncCycle execS execE s).scanQueue ≠ s.scanQueue →
        ∃ r2, pushScans execS (s.scanQueue.filter (fun q => q.synced == 0)) s.remote = .ok r2) := by
  constructor
  · intro e he
    by_cases hemp : (s.scanQueue.filter (fun q => q.synced == 0)).isEmpty = true
    · rw [List.isEmpty_iff] at hemp
      rw [hemp, pushScans_nil] at he
      cases he
    · have hs : syncScansE execS s = Except.error e := by
        unfold syncScansE syncScansGo
        rw [if_neg hemp, he]
      unfold syncCycle
      rw [hs]
  · intro hne
    by_cases hemp : (s.scanQueue.filter (fun q => q.synced == 0)).isEmpty = true
    · exfalso
      apply hne
      have hs : syncScansE execS s = Except.ok s := by
        unfold syncScansE syncScansGo
        rw [if_pos hemp]
      unfold syncCycle
      simp only [hs]
      cases h2 : syncErrorsE execE s with
      | error e => rfl
      | ok s2 => exact syncErrorsE_scanQueue _ _ _ h2
    · cases hp : pushScans execS (s.scanQueue.filter (fun q => q.synced == 0)) s.remote with
      | error e =>
        exfalso
        apply hne
        have hs : syncScansE execS s = Except.error e := by
          unfold syncScansE syncScansGo
          rw [if_neg hemp, hp]
        unfold syncCycle
        rw [hs]
      | ok r2 => exact ⟨r2, rfl⟩

/-- A remote engine that is unreachable: every execution raises. -/
def failExec (_ : RemoteState) (_ : LocalScanRow) : Except String RemoteState :=
  .error "connection refused"

/-- A sync state with one unsynced scan row and one unsynced error row. -/
def sampleSyncState : SyncState :=
  { scanQueue := [⟨1, "BHN-A", "Processing", 0⟩],
    errQueue := [⟨1, "x", "Packing", 0, "TRAY_NOT_REGISTERED", 0⟩],
    remote := ⟨[], [], [], []⟩ }

/-- Witness for C1: with an unreachable remote engine the cycle leaves the
local state exactly as it was. -/
theorem sync_cycle_keeps_local_on_push_error_witness :
    syncCycle failExec execErrRow sampleSyncState = sampleSyncState :=
  (sync_cycle_keeps_local_on_push_error failExec execErrRow sampleSyncState).1
    "connection refused" (by rfl)

theorem updItemProcessing_twice (c : String) (n1 t1 n2 t2 : Nat) (it : ItemRow) :
    updItemProcessing c n2 t2 (updItemProcessing c n1 t1 it) = updItemProcessing c n2 t2 it := by
  unfold updItemProcessing
  by_cases h : it.id = c <;> simp [h]

theorem updTrayPacking_twice (c : String) (n1 t1 n2 t2 : Nat) (t : TrayRow) :
    updTrayPacking c n2 t2 (updTrayPacking c n1 t1 t) = updTrayPacking c n2 t2 t := by
  unfold updTrayPacking
  by_cases h : t.tray_id = c <;> simp [h]

theorem updTrayDelivery_twice (c : String) (n1 t1 n2 t2 : Nat) (t : TrayRow) :
    updTrayDelivery c n2 t2 (updTrayDelivery c n1 t1 t) = updTrayDelivery c n2 t2 t := by
  unfold updTrayDelivery
  by_cases h : t.tray_id = c <;> simp [h]

theorem map_updItemProcessing_twice (c : String) (n1 t1 n2 t2 : Nat) (l : List ItemRow) :
    (l.map (updItemProcessing c n1 t1)).map (updItemProcessing c n2 t2) =
      l.map (updItemProcessing c n2 t2) := by
  induction l with
  | nil => rfl
  | cons a as ih => simp [ih, updItemProcessing_twice]

theorem map_updTrayPacking_twice (c : String) (n1 t1 n2 t2 : Nat) (l : List TrayRow) :
    (l.map (updTrayPacking c n1 t1)).map (updTrayPacking c n2 t2) =
      l.map (updTrayPacking c n2 t2) := by
  induction l with
  | nil => rfl
  | cons a as ih => simp [ih, updTrayPacking_twice]

theorem map_updTrayDelivery_twice (c : String) (n1 t1 n2 t2 : Nat) (l : List TrayRow) :
    (l.map (updTrayDelivery c n1 t1)).map (updTrayDelivery c n2 t2) =
      l.map (updTrayDelivery c n2 t2) := by
  induction l with
  | nil => rfl
  | cons a as ih => simp [ih, updTrayDelivery_twice]

theorem updTrayPacking_tray_id (c : String) (n t : Nat) (x : TrayRow) :
    (updTrayPacking c n t x).tray_id = x.tray_id := by
  unfold updTrayPacking
  split <;> rfl

theorem any_map_updTrayPacking (c c2 : String) (n t : Nat) (l : List TrayRow) :
    ((l.map (updTrayPacking c n t)).any (fun x => x.tray_id == c2)) =
      l.any (fun x => x.tray_id == c2) := by
  induction l with
  | nil => rfl
  | cons a as ih => simp [ih, updTrayPacking_tray_id]

theorem map_updTrayPacking_of_absent (c : String) (n t : Nat) (l : List TrayRow)
    (h : l.any (fun x => x.tray_id == c) = false) :
    l.map (updTrayPacking c n t) = l := by
  induction l with
  | nil => rfl
  | cons a as ih =>
    simp only [List.any_cons, Bool.or_eq_false_iff] at h
    simp only [List.map_cons, ih h.2]
    have ha : a.tray_id ≠ c := by
      intro hc
      rw [hc] at h
      simp at h
    simp [updTrayPacking, ha]

theorem map_updItemProcessing_of_absent (c : String) (n t : Nat) (l : List ItemRow)
    (h : l.any (fun x => x.id == c) = false) :
    l.map (updItemProcessing c n t) = l := by
  induction l with
  | nil => rfl
  | cons a as ih =>
    simp only [List.any_cons, Bool.or_eq_false_iff] at h
    simp only [List.map_cons, ih h.2]
    have ha : a.id ≠ c := by
      intro hc
      rw [hc] at h
      simp at h
    simp [updItemProcessing, ha]

theorem map_updTrayDelivery_of_absent (c : String) (n t : Nat) (l : List TrayRow)
    (h : l.any (fun x => x.tray_id == c) = false) :
    l.map (updTrayDelivery c n t) = l := by
  induction l with
  | nil => rfl
  | cons a as ih =>
    simp only [List.any_cons, Bool.or_eq_false_iff] at h
    simp only [List.map_cons, ih h.2]
    have ha : a.tray_id ≠ c := by
      intro hc
      rw [hc] at h
      simp at h
    simp [updTrayDelivery, ha]


theorem updTrayPacking_insert (c : String) (n1 t1 n2 t2 : Nat) :
    updTrayPacking c n2 t2 (insertTrayPacking c n1 t1) = insertTrayPacking c n2 t2 := by
  simp [updTrayPacking, insertTrayPacking]

theorem packingUpsert_twice (c : String) (n1 t1 n2 t2 : Nat) (l : List TrayRow) :
    packingUpsert c n2 t2 (packingUpsert c n1 t1 l) = packingUpsert c n2 t2 l := by
  unfold packingUpsert
  by_cases hany : l.any (fun t => t.tray_id == c) = true
  · rw [if_pos hany, if_pos ((any_map_updTrayPacking c c n1 t1 l).trans hany),
        if_pos hany, map_updTrayPacking_twice]
  · rw [Bool.not_eq_true] at hany
    have hcond : ((l ++ [insertTrayPacking c n1 t1]).any (fun t => t.tray_id == c)) = true := by
      rw [List.any_append]
      simp [insertTrayPacking, hany]
    have hne : ¬ ((l.any fun t => t.tray_id == c) = true) := by simp [hany]
    rw [if_neg hne, if_pos hcond, List.map_append,
        map_updTrayPacking_of_absent _ _ _ _ hany, if_neg hne]
    simp [updTrayPacking_insert]

/-- Claim C2 (amended): replaying a local queue row through the remote
mutation of _sync_scans is idempotent up to the second application
timestamps; however only the Packing branch has update-if-exists-else-insert
semantics — Processing and Delivery are bare updates, which leave the store
unchanged when no row carries the entity code. -/
theorem sync_upsert_idempotent (n1 t1 n2 t2 : Nat) (row : LocalScanRow) (r : RemoteState) :
    applyScanRow n2 t2 row (applyScanRow n1 t1 row r) = applyScanRow n2 t2 row r
    ∧ (row.step = "Packing" → r.trays.any (fun t => t.tray_id == row.code) = false →
        (applyScanRow n2 t2 row r).trays = r.trays ++ [insertTrayPacking row.code n2 t2])
    ∧ (row.step = "Processing" → r.items.any (fun it => it.id == row.code) = false →
        applyScanRow n2 t2 row r = r)
    ∧ (row.step = "Delivery" → r.trays.any (fun t => t.tray_id == row.code) = false →
        applyScanRow n2 t2 row r = r) := by
  by_cases hP : row.step = "Processing"
  · have l0 : ∀ n t (x : RemoteState), applyScanRow n t row x =
        { x with items := x.items.map (updItemProcessing row.code n t) } := by
      intro n t x
      unfold applyScanRow
      rw [if_pos hP]
    refine ⟨?_, ?_, ?_, ?_⟩
    · rw [l0, l0, l0]
      try dsimp only
      rw [map_updItemProcessing_twice]
    · intro hq _
      exact absurd (hP.symm.trans hq) (by decide)
    · intro _ h
      rw [l0]
      try dsimp only
      rw [map_updItemProcessing_of_absent _ _ _ _ h]
    · intro hq _
      exact absurd (hP.symm.trans hq) (by decide)
  · by_cases hPk : row.step = "Packing"
    · have l0 : ∀ n t (x : RemoteState), applyScanRow n t row x =
          { x with trays := packingUpsert row.code n t x.trays } := by
        intro n t x
        unfold applyScanRow
        rw [if_neg hP, if_pos hPk]
      refine ⟨?_, ?_, ?_, ?_⟩
      · rw [l0, l0, l0]
        try dsimp only
        rw [packingUpsert_twice]
      · intro _ hab
        rw [l0]
        unfold packingUpsert
        rw [if_neg (by simp [hab])]
      · intro hq _
        exact absurd (hPk.symm.trans hq) (by decide)
      · intro hq _
        exact absurd (hPk.symm.trans hq) (by decide)
    · by_cases hD : row.step = "Delivery"
      · have l0 : ∀ n t (x : RemoteState), applyScanRow n t row x =
            { x with trays := x.trays.map (updTrayDelivery row.code n t) } := by
          intro n t x
          unfold applyScanRow
          rw [if_neg hP, if_neg hPk, if_pos hD]
        refine ⟨?_, ?_, ?_, ?_⟩
        · rw [l0, l0, l0]
          try dsimp only
          rw [map_updTrayDelivery_twice]
        · intro hq _
          exact absurd (hD.symm.trans hq) (by decide)
        · intro hq _
          exact absurd (hD.symm.trans hq) (by decide)
        · intro _ h
          rw [l0]
          rw [map_updTrayDelivery_of_absent _ _ _ _ h]
      · have l0 : ∀ n t (x : RemoteState), applyScanRow n t row x = x := by
          intro n t x
          unfold applyScanRow
          rw [if_neg hP, if_neg hPk, if_neg hD]
        refine ⟨?_, ?_, ?_, ?_⟩
        · rw [l0, l0, l0]
        · intro hq _
          exact absurd hq hPk
        · intro hq _
          exact absurd hq hP
        · intro hq _
          exact absurd hq hD

/-- The empty remote store. -/
def emptyRemote : RemoteState := ⟨[], [], [], []⟩

/-- Counterexample for C2 as stated: syncing a Processing row whose code has
no items row does not insert one — no row keyed by the entity code carries
the processing flag afterwards, so the Processing push is not an
update-if-exists-else-insert. -/
theorem sync_processing_no_insert_cex :
    ¬ ∃ it ∈ (applyScanRow 1 1 ⟨1, "BHN-A", "Processing", 0⟩ emptyRemote).items,
        it.id = "BHN-A" := by decide

/-- Witness for C2: syncing a Processing row for an absent code leaves the
empty store unchanged. -/
theorem sync_upsert_idempotent_witness :
    applyScanRow 2 2 ⟨1, "BHN-A", "Processing", 0⟩ emptyRemote = emptyRemote :=
  (sync_upsert_idempotent 1 1 2 2 ⟨1, "BHN-A", "Processing", 0⟩ emptyRemote).2.2.1
    (by rfl) (by rfl)

/-- Claim C3 (amended): the Processing validator rejects the empty code with
EMPTY_SCAN and a code without the BHN- marker with a NOT_AN_INGREDIENT_CODE
reason, in both cases independently of the store read; for a BHN- code it
rejects INGREDIENT_NOT_FOUND when the store has no such item, accepts when
receiving is set and processing unset, rejects ALREADY_PROCESSED when
receiving and processing are both set — and when receiving is unset the
rejection is NOT_RECEIVED even if processing is already set. -/
theorem validate_processing_state_machine (code : String) (store : RemoteState)
    (row : ItemRow) (f f2 : Except String (Option ItemRow)) :
    (validate_processing "" f = (false, "EMPTY_SCAN"))
    ∧ (code ≠ "" → startsWithL code.data ("BHN-".data) = false →
        validate_processing code f =
          (false, "NOT_AN_INGREDIENT_CODE (expected BHN-, got: " ++ pyTake code 8 ++ ")")
        ∧ validate_processing code f = validate_processing code f2)
    ∧ (startsWithL code.data ("BHN-".data) = true → getRemoteItem store code = none →
        validate_processing code (itemFetchOf store code) = (false, "INGREDIENT_NOT_FOUND"))
    ∧ (startsWithL code.data ("BHN-".data) = true → getRemoteItem store code = some row →
        row.receiving = true → row.processing = false →
        validate_processing code (itemFetchOf store code) = (true, ""))
    ∧ (startsWithL code.data ("BHN-".data) = true → getRemoteItem store code = some row →
        row.receiving = true → row.processing = true →
        validate_processing code (itemFetchOf store code) = (false, "ALREADY_PROCESSED"))
    ∧ (startsWithL code.data ("BHN-".data) = true → getRemoteItem store code = some row →
        row.receiving = false →
        validate_processing code (itemFetchOf store code) = (false, "NOT_RECEIVED")) := by
  have hne : startsWithL code.data ("BHN-".data) = true → code ≠ "" := by
    intro h h0
    rw [h0] at h
    exact absurd h (by decide)
  refine ⟨by rfl, ?_, ?_, ?_, ?_, ?_⟩
  · intro h0 hpre
    constructor
    · simp [validate_processing, h0, hpre]
    · simp [validate_processing, h0, hpre]
  · intro hpre hget
    simp [validate_processing, itemFetchOf, hne hpre, hpre, hget]
  · intro hpre hget hrec hproc
    simp [validate_processing, itemFetchOf, hne hpre, hpre, hget, hrec, hproc]
  · intro hpre hget hrec hproc
    simp [validate_processing, itemFetchOf, hne hpre, hpre, hget, hrec, hproc]
  · intro hpre hget hrec
    simp [validate_processing, itemFetchOf, hne hpre, hpre, hget, hrec]

/-- A store whose only item has the processing flag set but receiving unset. -/
def notReceivedStore : RemoteState := ⟨[⟨"BHN-A", false, true, none, none⟩], [], [], []⟩

/-- Counterexample for C3 as stated: an item whose processing flag is
already set is not necessarily rejected with ALREADY_PROCESSED — when its
receiving flag is unset the validator answers NOT_RECEIVED instead. -/
theorem validate_processing_not_received_cex :
    validate_processing "BHN-A" (itemFetchOf notReceivedStore "BHN-A") = (false, "NOT_RECEIVED")
    ∧ (validate_processing "BHN-A" (itemFetchOf notReceivedStore "BHN-A")).2 ≠
        "ALREADY_PROCESSED" := by decide

/-- A store whose only item was received and already processed. -/
def processedStore : RemoteState := ⟨[⟨"BHN-A", true, true, none, none⟩], [], [], []⟩

/-- Witness for C3: the received-and-processed item is rejected with
ALREADY_PROCESSED. -/
theorem validate_processing_state_machine_witness :
    validate_processing "BHN-A" (itemFetchOf processedStore "BHN-A") =
      (false, "ALREADY_PROCESSED") :=
  (validate_processing_state_machine "BHN-A" processedStore ⟨"BHN-A", true, true, none, none⟩
      (.ok none) (.ok none)).2.2.2.2.1 (by decide) (by decide) (by decide) (by decide)

/-- Claim C4 (amended): for a well-formed, registered tray code the Packing
validator rejects exactly when the packing flag is set with a packing date
of today (reason ALREADY_PACKED_TODAY) and accepts in every other state; in
particular the delivery flag is never consulted, so a tray whose delivery
flag is set is accepted for Packing whenever the packed-today guard does not
fire. -/
theorem validate_packing_same_day_guard (code : String) (today : Nat) (row : Option TrayRow)
    (hpre : startsWithL code.data ("TRY-".data) = true) (hlen : code.length = 12) :
    ((validate_packing code today (.ok (true, row))).1 = false ↔
        ∃ r, row = some r ∧ r.packing = true ∧ r.created_date_packing = some today)
    ∧ ((∃ r, row = some r ∧ r.packing = true ∧ r.created_date_packing = some today) →
        validate_packing code today (.ok (true, row)) = (false, "ALREADY_PACKED_TODAY"))
    ∧ (∀ r, row = some r → r.delivery = true →
        ¬(r.packing = true ∧ r.created_date_packing = some today) →
        validate_packing code today (.ok (true, row)) = (true, "")) := by
  have hne : code ≠ "" := by
    intro h0
    rw [h0] at hpre
    exact absurd hpre (by decide)
  have hlen2 : ¬(code.length ≠ 12) := by simp [hlen]
  have hred : validate_packing code today (.ok (true, row)) =
      (match row with
       | some r =>
         if r.packing then
           if r.created_date_packing = some today then (false, "ALREADY_PACKED_TODAY")
           else (true, "")
         else (true, "")
       | none => (true, "")) := by
    unfold validate_packing
    rw [if_neg hne, if_neg (by simp [hpre]), if_neg hlen2]
    rfl
  refine ⟨?_, ?_, ?_⟩
  · rw [hred]
    cases row with
    | none => simp
    | some r =>
      by_cases hp : r.packing = true
      · by_cases hd : r.created_date_packing = some today
        · simp [hp, hd]
        · simp [hp, hd]
      · rw [Bool.not_eq_true] at hp
        simp [hp]
  · rintro ⟨r, hr, hp, hd⟩
    subst hr
    rw [hred]
    simp [hp, hd]
  · intro r hr _ hnot
    subst hr
    rw [hred]
    by_cases hp : r.packing = true
    · have hd : ¬(r.created_date_packing = some today) := fun hd => hnot ⟨hp, hd⟩
      simp [hp, hd]
    · rw [Bool.not_eq_true] at hp
      simp [hp]

/-- A store with one registered tray that was already delivered today but
never packed. -/
def deliveredTrayStore : RemoteState :=
  ⟨[], [⟨"TRY-BBBBBBBB", false, true, none, none, some 5, some 5⟩], ["TRY-BBBBBBBB"], []⟩

/-- Counterexample for C4 as stated: a registered tray whose delivery flag
is set (delivered today) is nevertheless accepted by the Packing validator,
because validate_packing never reads the delivery flag. -/
theorem validate_packing_accepts_delivered_cex :
    validate_packing "TRY-BBBBBBBB" 5 (trayFetchOf deliveredTrayStore "TRY-BBBBBBBB") =
      (true, "")
    ∧ (∃ t ∈ deliveredTrayStore.trays, t.tray_id = "TRY-BBBBBBBB" ∧ t.delivery = true) := by
  decide

/-- Witness for C4: a delivered, unpacked tray is accepted for Packing. -/
theorem validate_packing_same_day_guard_witness :
    validate_packing "TRY-BBBBBBBB" 5
      (.ok (true, some ⟨"TRY-BBBBBBBB", false, true, none, none, some 5, some 5⟩)) =
      (true, "") :=
  (validate_packing_same_day_guard "TRY-BBBBBBBB" 5
      (some ⟨"TRY-BBBBBBBB", false, true, none, none, some 5, some 5⟩)
      (by decide) (by decide)).2.2
    ⟨"TRY-BBBBBBBB", false, true, none, none, some 5, some 5⟩ rfl rfl (by decide)

/-- Claim C6: when the remote read raises, each stage validator on a
format-clean code fails closed with the distinguishable unreachable-store
reason and never answers accept. -/
theorem validators_fail_closed (code e : String) (today : Nat) :
    (code ≠ "" → startsWithL code.data ("BHN-".data) = true →
        validate_processing code (.error e) = (false, "SUPABASE_UNREACHABLE: " ++ e))
    ∧ (code ≠ "" → startsWithL code.data ("TRY-".data) = true → code.length = 12 →
        validate_packing code today (.error e) = (false, "SUPABASE_UNREACHABLE: " ++ e)
        ∧ validate_delivery code today (.error e) = (false, "SUPABASE_UNREACHABLE: " ++ e)) := by
  constructor
  · intro h0 hpre
    simp [validate_processing, h0, hpre]
  · intro h0 hpre hlen
    constructor
    · simp [validate_packing, h0, hpre, hlen]
    · simp [validate_delivery, h0, hpre, hlen]

/-- Witness for C6: a timed-out store read is surfaced as
SUPABASE_UNREACHABLE for all three validators. -/
theorem validators_fail_closed_witness :
    validate_processing "BHN-A" (.error "timeout") =
      (false, "SUPABASE_UNREACHABLE: timeout")
    ∧ validate_packing "TRY-BBBBBBBB" 0 (.error "timeout") =
      (false, "SUPABASE_UNREACHABLE: timeout") :=
  ⟨(validators_fail_closed "BHN-A" "timeout" 0).1 (by decide) (by decide),
   ((validators_fail_closed "TRY-BBBBBBBB" "timeout" 0).2 (by decide) (by decide)
      (by decide)).1⟩

/-- The accumulator step of db_get_next_print_job: keep the pending job
with the smaller id (the first one on a tie). -/
theorem db_get_next_foldl (l : List PrintJob) (acc : Option PrintJob) (j : PrintJob)
    (h : l.foldl
        (fun acc j =>
          match acc with
          | none => some j
          | some a => if j.id < a.id then some j else some a) acc = some j) :
    (j ∈ l ∨ acc = some j) ∧ (∀ k ∈ l, j.id ≤ k.id) ∧ (∀ a, acc = some a → j.id ≤ a.id) := by
  induction l generalizing acc with
  | nil =>
    refine ⟨Or.inr h, by simp, ?_⟩
    intro a ha
    rw [ha] at h
    injection h with h
    rw [h]
  | cons x xs ih =>
    simp only [List.foldl_cons] at h
    obtain ⟨hmem, hxs, hacc⟩ := ih _ h
    cases acc with
    | none =>
      have hx := hacc x rfl
      refine ⟨?_, ?_, ?_⟩
      · rcases hmem with hm | hm
        · exact Or.inl (List.mem_cons_of_mem _ hm)
        · injection hm with hm
          rw [← hm]
          exact Or.inl (List.mem_cons_self _ _)
      · intro k hk
        rcases List.mem_cons.mp hk with hk | hk
        · rw [hk]; exact hx
        · exact hxs k hk
      · intro a ha
        cases ha
    | some a =>
      by_cases hlt : x.id < a.id
      · simp only [if_pos hlt] at hmem hacc
        have hx := hacc x rfl
        refine ⟨?_, ?_, ?_⟩
        · rcases hmem with hm | hm
          · exact Or.inl (List.mem_cons_of_mem _ hm)
          · injection hm with hm
            rw [← hm]
            exact Or.inl (List.mem_cons_self _ _)
        · intro k hk
          rcases List.mem_cons.mp hk with hk | hk
          · rw [hk]; exact hx
          · exact hxs k hk
        · intro b hb
          injection hb with hb
          rw [← hb]
          exact le_trans hx (le_of_lt hlt)
      · simp only [if_neg hlt] at hmem hacc
        have hax := hacc a rfl
        refine ⟨?_, ?_, ?_⟩
        · rcases hmem with hm | hm
          · exact Or.inl (List.mem_cons_of_mem _ hm)
          · exact Or.inr hm
        · intro k hk
          rcases List.mem_cons.mp hk with hk | hk
          · rw [hk]
            exact le_trans hax (le_of_not_lt hlt)
          · exact hxs k hk
        · intro b hb
          injection hb with hb
          rw [← hb]
          exact hax

/-- Characterization of db_get_next_print_job: it returns a pending job of
minimal id. -/
theorem db_get_next_print_job_min (jobs : List PrintJob) (j : PrintJob)
    (h : db_get_next_print_job jobs = some j) :
    j ∈ jobs ∧ j.printed = 0 ∧ (∀ k ∈ jobs, k.printed = 0 → j.id ≤ k.id) := by
  unfold db_get_next_print_job at h
  obtain ⟨hmem, hmin, _⟩ := db_get_next_foldl _ _ _ h
  have hj : j ∈ jobs.filter (fun x => x.printed == 0) := by
    rcases hmem with hm | hm
    · exact hm
    · cases hm
  have hj2 := List.mem_filter.mp hj
  refine ⟨hj2.1, by simpa using hj2.2, ?_⟩
  intro k hk hk0
  exact hmin k (List.mem_filter.mpr ⟨hk, by simp [hk0]⟩)

/-- Claim C5: when the physical print raises, the poller sends no
acknowledgement and the queue is untouched, the fetched job (the oldest
pending one, returned alone by GET /print-queue) still has printed = 0, and
the next fetch returns the same job again; a job is marked printed only by
the acknowledgement that follows a successful physical write. -/
theorem print_failure_keeps_job (jobs : List PrintJob) (j : PrintJob) (key : String)
    (now : Nat) (h : db_get_next_print_job jobs = some j) :
    j.printed = 0
    ∧ (∀ k ∈ jobs, k.printed = 0 → j.id ≤ k.id)
    ∧ print_queue key (some key) jobs = .ok [(j.id, j.tspl)]
    ∧ poll_once false key (some key) now jobs = (jobs, none)
    ∧ db_get_next_print_job (poll_once false key (some key) now jobs).1 = some j := by
  obtain ⟨hmem, h0, hmin⟩ := db_get_next_print_job_min jobs j h
  have hq : print_queue key (some key) jobs = .ok [(j.id, j.tspl)] := by
    unfold print_queue
    rw [if_neg (by simp), h]
  have hp : poll_once false key (some key) now jobs = (jobs, none) := by
    unfold poll_once
    rw [hq]
    rfl
  exact ⟨h0, hmin, hq, by rw [hp], by rw [hp]; exact h⟩

/-- A queue with one pending job. -/
def sampleJobs : List PrintJob := [⟨1, "TSPL", 0, 0, none⟩]

/-- Witness for C5: a failed physical print leaves the one-job queue
unchanged and unacknowledged. -/
theorem print_failure_keeps_job_witness :
    poll_once false "k" (some "k") 9 sampleJobs = (sampleJobs, none) :=
  (print_failure_keeps_job sampleJobs ⟨1, "TSPL", 0, 0, none⟩ "k" 9 (by rfl)).2.2.2.1

theorem db_mark_absent_id (job_id now : Nat) (jobs : List PrintJob)
    (h : ∀ x ∈ jobs, x.id ≠ job_id) :
    db_mark_print_job_printed job_id now jobs = jobs := by
  induction jobs with
  | nil => rfl
  | cons a as ih =>
    unfold db_mark_print_job_printed
    simp only [List.map_cons]
    have ha : a.id ≠ job_id := h a (List.mem_cons_self _ _)
    rw [if_neg ha]
    have := ih (fun x hx => h x (List.mem_cons_of_mem _ hx))
    unfold db_mark_print_job_printed at this
    rw [this]

/-- Claim C10: POST /print-complete with the correct key and an id matching
no print job still succeeds — the update touches zero rows, so no printed
flag changes, and the endpoint answers ok true. -/
theorem print_complete_unknown_id (key : String) (job_id now : Nat)
    (jobs : List PrintJob) (hid : ∀ x ∈ jobs, x.id ≠ job_id) :
    print_complete key (some key) job_id now jobs = (.ok true, jobs) := by
  unfold print_complete
  rw [if_neg (by simp), db_mark_absent_id _ _ _ hid]

/-- Witness for C10: completing the unknown id 7 against the one-job queue
answers ok and changes nothing. -/
theorem print_complete_unknown_id_witness :
    print_complete "k" (some "k") 7 3 sampleJobs = (.ok true, sampleJobs) :=
  print_complete_unknown_id "k" 7 3 sampleJobs (by decide)

theorem countStatus_scanProcess (mode code : String) (inp : LineInput) :
    countStatus (scanProcess mode code inp) = 1 := by
  simp only [scanProcess]
  by_cases h1 : (runValidator mode inp code).1 = false
  · rw [if_pos h1]
    by_cases h2 : inp.enqErrFails = true
    · rw [if_pos h2]; rfl
    · rw [if_neg h2]; rfl
  · rw [if_neg h1]
    by_cases h3 : inp.enqScanFails = true
    · rw [if_pos h3]
      by_cases h2 : inp.enqErrFails = true
      · rw [if_pos h2]; rfl
      · rw [if_neg h2]; rfl
    · rw [if_neg h3]
      by_cases h4 : mode = "Delivery" ∧ inp.deliveryFails = true
      · rw [if_pos h4]
        by_cases h2 : inp.enqErrFails = true
        · rw [if_pos h2]; rfl
        · rw [if_neg h2]; rfl
      · rw [if_neg h4]
        by_cases hD : mode = "Delivery"
        · rw [if_pos hD]; rfl
        · rw [if_neg hD]; rfl

theorem validated_mem_scanProcess (mode code : String) (inp : LineInput) :
    ScanEvent.validated code ∈ scanProcess mode code inp := by
  simp only [scanProcess]
  by_cases h1 : (runValidator mode inp code).1 = false
  · rw [if_pos h1]
    by_cases h2 : inp.enqErrFails = true
    · rw [if_pos h2]; exact List.mem_cons_self _ _
    · rw [if_neg h2]; exact List.mem_cons_self _ _
  · rw [if_neg h1]
    by_cases h3 : inp.enqScanFails = true
    · rw [if_pos h3]
      by_cases h2 : inp.enqErrFails = true
      · rw [if_pos h2]; exact List.mem_cons_self _ _
      · rw [if_neg h2]; exact List.mem_cons_self _ _
    · rw [if_neg h3]
      by_cases h4 : mode = "Delivery" ∧ inp.deliveryFails = true
      · rw [if_pos h4]
        by_cases h2 : inp.enqErrFails = true
        · rw [if_pos h2]; exact List.mem_cons_self _ _
        · rw [if_neg h2]; exact List.mem_cons_self _ _
      · rw [if_neg h4]
        simp

theorem scanStep_of_drop (mode : String) (st : Option String × ℚ) (inp : LineInput)
    (h1 : extract_code (pyStrip inp.line) ≠ "")
    (h2 : st.1 = some (extract_code (pyStrip inp.line)))
    (h3 : inp.t - st.2 < debounceWindow) :
    scanStep mode st inp = (st, []) := by
  simp only [scanStep]
  rw [if_pos ⟨h1, h2, h3⟩]

theorem scanStep_of_go (mode : String) (st : Option String × ℚ) (inp : LineInput)
    (h : ¬(extract_code (pyStrip inp.line) ≠ "" ∧
        st.1 = some (extract_code (pyStrip inp.line)) ∧
        inp.t - st.2 < debounceWindow)) :
    scanStep mode st inp =
      ((some (extract_code (pyStrip inp.line)), inp.t),
        scanProcess mode (extract_code (pyStrip inp.line)) inp) := by
  simp only [scanStep]
  rw [if_neg h]

/-- Claim C7: a line whose normalized code is nonempty, equals the
previously processed code and arrives within the debounce window is dropped
with no events at all — no validation, no local queue write, no error-log
write, no status output — and the loop state is untouched; any other line
is processed normally: the loop state becomes (code, time of the line) and
the stage validator runs. -/
theorem debounce_drops_duplicates (mode : String) (st : Option String × ℚ) (inp : LineInput) :
    (extract_code (pyStrip inp.line) ≠ "" →
      st.1 = some (extract_code (pyStrip inp.line)) →
      inp.t - st.2 < debounceWindow →
      scanStep mode st inp = (st, []))
    ∧ (¬(extract_code (pyStrip inp.line) ≠ "" ∧
          st.1 = some (extract_code (pyStrip inp.line)) ∧
          inp.t - st.2 < debounceWindow) →
        scanStep mode st inp =
          ((some (extract_code (pyStrip inp.line)), inp.t),
            scanProcess mode (extract_code (pyStrip inp.line)) inp)
        ∧ ScanEvent.validated (extract_code (pyStrip inp.line)) ∈ (scanStep mode st inp).2) := by
  constructor
  · exact scanStep_of_drop mode st inp
  · intro h
    have hstep := scanStep_of_go mode st inp h
    exact ⟨hstep, by rw [hstep]; exact validated_mem_scanProcess _ _ _⟩

/-- A scan line carrying the bare code BHN-A at wall-clock time t, with a
reachable store that has no items and fault-free local writes. -/
def lineAt (t : ℚ) : LineInput :=
  { line := "BHN-A", t := t, whenStr := "2025-01-01 10:00:00", itemFetch := .ok none,
    trayFetch := .ok (false, none), today := 0, enqScanFails := false,
    enqErrFails := false, deliveryFails := false, excMsg := "" }

/-- Witness for C7: a repeat of BHN-A one tenth of a second after it was
last processed is dropped without any event. -/
theorem debounce_drops_duplicates_witness :
    scanStep "Processing" (some "BHN-A", 0) (lineAt (1 / 10)) = ((some "BHN-A", 0), []) :=
  (debounce_drops_duplicates "Processing" (some "BHN-A", 0) (lineAt (1 / 10))).1
    (by decide) (by decide) (by norm_num [lineAt, debounceWindow])

/-- Claim C9 (amended): one line of input produces exactly one status block
— SUKSES or GAGAL — whatever the validator answers and whichever local
write or delivery step raises, except that a line dropped by the debounce
filter produces no status block at all. -/
theorem one_status_block_per_line (mode : String) (st : Option String × ℚ) (inp : LineInput) :
    countStatus (scanStep mode st inp).2 =
      if extract_code (pyStrip inp.line) ≠ "" ∧
          st.1 = some (extract_code (pyStrip inp.line)) ∧
          inp.t - st.2 < debounceWindow then 0 else 1 := by
  by_cases h : extract_code (pyStrip inp.line) ≠ "" ∧
      st.1 = some (extract_code (pyStrip inp.line)) ∧ inp.t - st.2 < debounceWindow
  · rw [if_pos h]
    simp only [scanStep]
    rw [if_pos h]
    rfl
  · rw [if_neg h]
    simp only [scanStep]
    rw [if_neg h]
    exact countStatus_scanProcess _ _ _

theorem countStatus_append (a b : List ScanEvent) :
    countStatus (a ++ b) = countStatus a + countStatus b := by
  simp [countStatus, List.filter_append]

/-- Counterexample for C9 as stated: a two-line run in which the second
line repeats BHN-A a tenth of a second later writes one status block in
total, not one per input line — the debounced line produces zero blocks. -/
theorem one_status_block_per_line_cex :
    countStatus (runLines "Processing" (none, 0) [lineAt 0, lineAt (1 / 10)]) = 1 := by
  have hcode : extract_code (pyStrip (lineAt 0).line) = "BHN-A" := by decide
  have hcode2 : extract_code (pyStrip (lineAt (1 / 10)).line) = "BHN-A" := by decide
  have h1 : scanStep "Processing" ((none : Option String), (0 : ℚ)) (lineAt 0) =
      ((some "BHN-A", (lineAt 0).t), scanProcess "Processing" "BHN-A" (lineAt 0)) := by
    rw [scanStep_of_go _ _ _ (by simp), hcode]
  have h2 : scanStep "Processing" (some "BHN-A", (lineAt 0).t) (lineAt (1 / 10)) =
      ((some "BHN-A", (lineAt 0).t), []) := by
    apply scanStep_of_drop
    · rw [hcode2]
      decide
    · rw [hcode2]
    · show (lineAt (1 / 10)).t - (lineAt 0).t < debounceWindow
      norm_num [lineAt, debounceWindow]
  simp only [runLines]
  rw [h1]
  dsimp only
  rw [h2]
  dsimp only
  rw [countStatus_append, countStatus_scanProcess]
  rfl

theorem findParamLoop_eq_findSome (parts : List (List Char)) :
    findParamLoop parts = parts.findSome? recognizedValue := by
  induction parts with
  | nil => rfl
  | cons p ps ih =>
    rw [List.findSome?_cons]
    unfold findParamLoop
    cases h : recognizedValue p with
    | none => rw [ih]
    | some v => rfl

/-- Claim C8 (amended): blank input (empty or whitespace only) yields the
empty string without raising; and whenever the lowercased trimmed input
contains one of the recognized key markers and the parameter scan over the
ampersand-separated parts (question marks first folded into ampersands)
finds a first part whose stripped, lowercased key is among tray_id,
ingredient_id, id, barcode with a nonempty stripped value, extract_code
returns exactly that value. -/
theorem extract_code_query_params (raw v : String) :
    (pyStrip raw = "" → extract_code raw = "")
    ∧ (paramGuard (pyLower (pyStrip raw)) = true →
        (splitCharL '&' ((pyStrip raw).data.map
            (fun c => if c = '?' then '&' else c))).findSome? recognizedValue = some v →
        extract_code raw = v) := by
  constructor
  · intro h
    simp only [extract_code]
    rw [if_pos h]
  · intro hg hf
    have hs : pyStrip raw ≠ "" := by
      intro h0
      rw [h0] at hg
      exact absurd hg (by decide)
    simp only [extract_code]
    rw [if_neg hs, if_pos hg, findParamLoop_eq_findSome, hf]

/-- Witness for C8: a URL carrying tray_id yields the parameter value. -/
theorem extract_code_query_params_witness :
    extract_code "https://x.app/?tray_id=TRY-AAAABBBB&x=1" = "TRY-AAAABBBB" :=
  (extract_code_query_params "https://x.app/?tray_id=TRY-AAAABBBB&x=1" "TRY-AAAABBBB").2
    (by decide) (by decide)

/-- Counterexample for C8 as stated: the key code= named by the claim is
not recognized by extract_code — tray_id, ingredient_id, id and barcode
are — so a raw string carrying only a code= parameter is returned whole
instead of yielding the parameter value. -/
theorem extract_code_code_key_cex :
    extract_code "code=hello" = "code=hello" ∧ extract_code "code=hello" ≠ "hello" := by
  decide
